import Mathlib

/-!
Shallow embedding of the OOAD assistant (src/app.py and src/database_helper.py).

The SQLite store is modelled as explicit lists of rows; timestamps are a
logical clock (a natural number held in the state and bumped by each write),
so that CURRENT_TIMESTAMP values are strictly increasing across operations.
SQL "ORDER BY ... DESC" is modelled by sorting with an explicit
greater-or-equal relation on the relevant column. Python byte strings are
lists of naturals; a value of Python type "str | bytes" is a sum.
External effects (the filesystem, the PyPDF2 / python-docx / PIL decoders,
and the Gemini remote model) are oracles passed in as explicit arguments:
an Except value models "returned normally" versus "raised an exception".
-/

/-- Python bytes value: a list of byte values. -/
abbrev PyBytes := List Nat

/-- Python value of type str | bytes as it flows through the app. -/
abbrev FileData := String ⊕ PyBytes

/-- Truthiness of a Python Optional[str]: falsy when None or the empty string. -/
def pyFalsyOptStr : Option String → Bool
  | Option.none => true
  | some s => s.data.isEmpty

/-- Truthiness of a Python Optional[int]: truthy when present and nonzero. -/
def pyTruthyOptNat : Option Nat → Bool
  | Option.none => false
  | some d => d != 0

/-- Truthiness of a Python Optional value of type str | bytes: falsy when
None, the empty string, or the empty bytes. -/
def pyTruthyFileData : Option FileData → Bool
  | Option.none => false
  | some (Sum.inl s) => !s.data.isEmpty
  | some (Sum.inr b) => !b.isEmpty

/-- Does the character list start with the pattern list. -/
def charListStarts : List Char → List Char → Bool
  | [], _ => true
  | _ :: _, [] => false
  | a :: as, b :: bs => a == b && charListStarts as bs

/-- Does the pattern list occur contiguously inside the character list. -/
def charListHas (pat : List Char) : List Char → Bool
  | [] => pat.isEmpty
  | b :: bs => charListStarts pat (b :: bs) || charListHas pat bs

/-- Substring containment test on strings, used to state properties of the
prompt templates. -/
def containsSubstr (s pat : String) : Bool :=
  charListHas pat.data s.data

/-- Python str emptiness test, computed on the character list. -/
def pyIsEmpty (s : String) : Bool :=
  s.data.isEmpty

/-- Characters removed by the Python str.strip default: ASCII whitespace. -/
def pyIsSpaceChar (c : Char) : Bool :=
  c == ' ' || c == '\t' || c == '\n' || c == '\r' || c == '\x0b' || c == '\x0c'

/-- Python str.strip with no argument: remove leading and trailing
whitespace. -/
def pyStrip (s : String) : String :=
  ⟨((s.data.dropWhile pyIsSpaceChar).reverse.dropWhile pyIsSpaceChar).reverse⟩

/-- Python str.lower, lowercasing character by character. -/
def pyToLower (s : String) : String :=
  ⟨s.data.map Char.toLower⟩

/-- Python str.startswith. -/
def pyStartsWith (s pat : String) : Bool :=
  charListStarts pat.data s.data

/-- Python slice s[:n], the first n characters. -/
def pyTake (s : String) (n : Nat) : String :=
  ⟨s.data.take n⟩

/-- Python sep.join(parts). -/
def pyJoin (sep : String) : List String → String
  | [] => ""
  | [x] => x
  | x :: y :: xs => x ++ sep ++ pyJoin sep (y :: xs)

/-- Greater-or-equal comparison through a numeric key, used to model SQL
ORDER BY key DESC. -/
def geOn {α : Type} (f : α → Nat) (a b : α) : Prop :=
  f b ≤ f a

instance {α : Type} (f : α → Nat) : DecidableRel (geOn f) :=
  fun a b => Nat.decLe (f b) (f a)

instance {α : Type} (f : α → Nat) : IsTotal α (geOn f) :=
  ⟨fun a b => Nat.le_total (f b) (f a)⟩

instance {α : Type} (f : α → Nat) : IsTrans α (geOn f) :=
  ⟨fun _ _ _ h1 h2 => Nat.le_trans h2 h1⟩

/-- Row of the documents table. -/
structure DocRow where
  id : Nat
  filename : String
  file_type : String
  content : FileData
  upload_date : Nat
  last_accessed : Nat
deriving DecidableEq

/-- Row of the document_analysis table. The document_id column is nullable. -/
structure AnalysisRow where
  id : Nat
  document_id : Option Nat
  analysis_type : String
  analysis_content : String
  created_at : Nat
deriving DecidableEq

/-- Row of the queries table. The document_id column is nullable. -/
structure QueryRow where
  id : Nat
  document_id : Option Nat
  query_text : String
  response_text : String
  agent_type : String
  created_at : Nat
deriving DecidableEq

/-- State of the SQLite database, plus the autoincrement counters and the
logical clock supplying CURRENT_TIMESTAMP values. -/
structure DB where
  documents : List DocRow
  analyses : List AnalysisRow
  queries : List QueryRow
  next_doc_id : Nat
  next_analysis_id : Nat
  next_query_id : Nat
  now : Nat
deriving DecidableEq

/-- DatabaseManager.save_document: INSERT a document row with upload_date and
last_accessed set to CURRENT_TIMESTAMP; returns the new rowid. -/
def save_document (db : DB) (filename file_type : String) (content : FileData) :
    Nat × DB :=
  (db.next_doc_id,
   { db with
      documents := db.documents ++
        [⟨db.next_doc_id, filename, file_type, content, db.now, db.now⟩]
      next_doc_id := db.next_doc_id + 1
      now := db.now + 1 })

/-- DatabaseManager.get_document: SELECT the row by id, then UPDATE its
last_accessed to CURRENT_TIMESTAMP; the returned row carries the values read
by the SELECT, before the update. -/
def get_document (db : DB) (document_id : Nat) : Option DocRow × DB :=
  match db.documents.find? (fun r => r.id == document_id) with
  | Option.none => (Option.none, db)
  | some r =>
      (some r,
       { db with
          documents := db.documents.map
            (fun x => if x.id == document_id
                      then { x with last_accessed := db.now } else x)
          now := db.now + 1 })

/-- DatabaseManager.save_analysis: INSERT an analysis row with created_at set
to CURRENT_TIMESTAMP; returns the new rowid. -/
def save_analysis (db : DB) (document_id : Nat)
    (analysis_type analysis_content : String) : Nat × DB :=
  (db.next_analysis_id,
   { db with
      analyses := db.analyses ++
        [⟨db.next_analysis_id, some document_id, analysis_type,
          analysis_content, db.now⟩]
      next_analysis_id := db.next_analysis_id + 1
      now := db.now + 1 })

/-- DatabaseManager.get_analysis: SELECT analysis_content WHERE document_id
and analysis_type match, ORDER BY created_at DESC LIMIT 1. -/
def get_analysis (db : DB) (document_id : Nat) (analysis_type : String) :
    Option String :=
  let rows := db.analyses.filter
    (fun r => r.document_id == some document_id &&
              r.analysis_type == analysis_type)
  (List.insertionSort (geOn AnalysisRow.created_at) rows).head?.map
    AnalysisRow.analysis_content

/-- DatabaseManager.save_query: INSERT a query row (document_id may be NULL)
with created_at set to CURRENT_TIMESTAMP; returns the new rowid. -/
def save_query (db : DB) (document_id : Option Nat)
    (query_text response_text agent_type : String) : Nat × DB :=
  (db.next_query_id,
   { db with
      queries := db.queries ++
        [⟨db.next_query_id, document_id, query_text, response_text,
          agent_type, db.now⟩]
      next_query_id := db.next_query_id + 1
      now := db.now + 1 })

/-- DatabaseManager.delete_query: DELETE FROM queries WHERE id matches;
returns rowcount > 0. -/
def delete_query (db : DB) (query_id : Nat) : Bool × DB :=
  (decide (0 < db.queries.countP (fun r => r.id == query_id)),
   { db with queries := db.queries.filter (fun r => !(r.id == query_id)) })

/-- DatabaseManager.get_recent_queries: when the Python document_id argument
is truthy, SELECT WHERE document_id matches; otherwise SELECT all; in both
branches ORDER BY created_at DESC LIMIT limit, projecting the columns
(id, query_text, response_text, agent_type, created_at). -/
def get_recent_queries (db : DB) (document_id : Option Nat) (limit : Nat) :
    List (Nat × String × String × String × Nat) :=
  let rows := if pyTruthyOptNat document_id then
      db.queries.filter (fun r => r.document_id == document_id)
    else db.queries
  ((List.insertionSort (geOn QueryRow.created_at) rows).take limit).map
    (fun r => (r.id, r.query_text, r.response_text, r.agent_type, r.created_at))

/-- Default-argument form of get_recent_queries: document_id defaults to
None and limit defaults to 5. -/
def get_recent_queries_default (db : DB) :
    List (Nat × String × String × String × Nat) :=
  get_recent_queries db Option.none 5

/-- DatabaseManager.get_recent_documents: SELECT the columns
(id, filename, file_type, upload_date, last_accessed) ORDER BY
last_accessed DESC LIMIT limit. -/
def get_recent_documents (db : DB) (limit : Nat) :
    List (Nat × String × String × Nat × Nat) :=
  ((List.insertionSort (geOn DocRow.last_accessed) db.documents).take limit).map
    (fun r => (r.id, r.filename, r.file_type, r.upload_date, r.last_accessed))

/-- Default-argument form of get_recent_documents: limit defaults to 5. -/
def get_recent_documents_default (db : DB) :
    List (Nat × String × String × Nat × Nat) :=
  get_recent_documents db 5

/-- DatabaseManager.delete_document: DELETE the analysis rows, then the query
rows, then the document row itself; the returned flag is rowcount > 0 of the
final DELETE, the one on the documents table. -/
def delete_document (db : DB) (document_id : Nat) : Bool × DB :=
  let analyses2 := db.analyses.filter
    (fun r => !(r.document_id == some document_id))
  let queries2 := db.queries.filter
    (fun r => !(r.document_id == some document_id))
  let documents2 := db.documents.filter (fun r => !(r.id == document_id))
  let rowcount := db.documents.countP (fun r => r.id == document_id)
  (decide (0 < rowcount),
   { db with documents := documents2, analyses := analyses2,
             queries := queries2 })

/-- Request sent to the remote Gemini model: either a multi-part vision
request built from a prompt, a declared MIME type and image bytes, or a plain
text request built from a model name and a full prompt string. -/
inductive GwRequest where
  | vision : String → String → PyBytes → GwRequest
  | text : String → String → GwRequest
deriving DecidableEq

/-- Oracle for the remote model: Except.ok is the text returned by
generate_content, Except.error is the message of a raised exception. -/
abbrev GwOracle := GwRequest → Except String String

/-- Result dictionary returned by query_gemini_api. -/
structure GwResult where
  status : String
  content : String
deriving DecidableEq

/-- Conversion of the generate_content outcome to the result dictionary: a
normal return yields status success with the response text, an exception
yields status error with the formatted message. -/
def wrapResult : Except String String → GwResult
  | Except.ok t => ⟨"success", t⟩
  | Except.error e => ⟨"error", "Error communicating with AI model: " ++ e⟩

/-- Full prompt built by query_gemini_api when a truthy textual context is
present. -/
def context_template (context prompt : String) : String :=
  "\n            Context from uploaded file:\n            " ++ context ++
  "\n\n            Query:\n            " ++ prompt ++ "\n            "

/-- query_gemini_api from src/app.py: bytes context selects the vision model
with a multi-part request declaring MIME type image/jpeg; otherwise the text
model is used, with the context block prepended only when the context is
truthy (a falsy context, None or the empty string, leaves the prompt bare).
Any exception from the model is caught and converted to an error result. -/
def query_gemini_api (oracle : GwOracle) (prompt : String)
    (context : Option FileData) (model_name : String) : GwResult :=
  match context with
  | some (Sum.inr data) =>
      wrapResult (oracle (GwRequest.vision prompt "image/jpeg" data))
  | Option.none =>
      wrapResult (oracle (GwRequest.text model_name prompt))
  | some (Sum.inl s) =>
      let full_prompt := if pyIsEmpty s then prompt else context_template s prompt
      wrapResult (oracle (GwRequest.text model_name full_prompt))

/-- Request that query_gemini_api sends for a given prompt, context and model
name, stated separately to reason about the gateway. -/
def gw_request (prompt : String) (context : Option FileData)
    (model_name : String) : GwRequest :=
  match context with
  | some (Sum.inr data) => GwRequest.vision prompt "image/jpeg" data
  | Option.none => GwRequest.text model_name prompt
  | some (Sum.inl s) =>
      GwRequest.text model_name (if pyIsEmpty s then prompt else context_template s prompt)

/-- Classification prompt template of analyze_query. -/
def classifier_prompt (query : String) : String :=
  "\n    Analyze this query and determine which specialized agent would be most appropriate.\n    Query: " ++
  query ++
  "\n\n    Choose from:\n    1. Concept Clarification Agent - For explaining OOAD concepts, principles, and theoretical questions\n    2. Code Snippet Generator Agent - For generating example code, implementation patterns, and coding solutions\n    3. Design Assistant Agent - For system design, UML diagrams, and architectural recommendations\n\n    Respond with only one of: \"concept\", \"code\", or \"design\"\n    "

/-- Prompt actually sent by analyze_query: the classification template, plus
the first 1000 characters of a truthy textual document excerpt, or a generic
note when the attached content is an image. -/
def classifier_full_prompt (query : String) (file_content : Option FileData) :
    String :=
  let prompt := classifier_prompt query
  if pyTruthyFileData file_content then
    match file_content with
    | some (Sum.inl s) =>
        prompt ++ "\nContext from document:\n" ++ pyTake s 1000 ++ "..."
    | _ => prompt ++ "\nNote: Query includes an image file."
  else prompt

/-- analyze_query from src/app.py: build the classification prompt, call the
gateway with no context and the default model, and on success return the
response content trimmed and lowercased, otherwise the literal concept. -/
def analyze_query (oracle : GwOracle) (query : String)
    (file_content : Option FileData) : String :=
  let response :=
    query_gemini_api oracle (classifier_full_prompt query file_content)
      Option.none "gemini-pro"
  if response.status == "success" then pyToLower (pyStrip response.content)
  else "concept"

/-- Prompt template of the concept agent. -/
def concept_prompt (query : String) : String :=
  "\n        Act as an OOAD expert. Explain the following concept clearly and concisely:\n        " ++
  query ++
  "\n\n        Provide:\n        1. Clear definition with examples\n        2. Key characteristics and principles\n        3. Real-world applications\n        4. Common misconceptions\n        5. Best practices and pitfalls\n        "

/-- Prompt template of the code agent. -/
def code_prompt (query : String) : String :=
  "\n        Generate a practical, production-ready implementation for this request:\n        " ++
  query ++
  "\n\n        Include:\n        1. Complete, working code with error handling\n        2. Step-by-step explanation of the implementation in java\n        3. Best practices and potential pitfalls\n        4. Usage examples and test cases\n        5. Performance considerations\n        "

/-- Prompt template of the design agent. -/
def design_prompt (query : String) : String :=
  "\n        Act as a senior software architect. Address this design request:\n        " ++
  query ++
  "\n\n        Provide:\n        1. Comprehensive system design overview\n        2. Key components and their interactions\n        3. Design patterns and SOLID principles application\n        4. Scalability and maintainability considerations\n        5. Potential challenges and mitigation strategies\n        "

/-- get_agent_prompt from src/app.py: a dictionary lookup over the three
templates, defaulting to the concept template for any other agent type. -/
def get_agent_prompt (query agent_type : String) : String :=
  if agent_type == "concept" then concept_prompt query
  else if agent_type == "code" then code_prompt query
  else if agent_type == "design" then design_prompt query
  else concept_prompt query

/-- Oracles for the file readers used by read_file_content: plain text read,
PDF page texts, docx paragraph texts, and the PIL decode producing the
canonical RGB PNG byte buffer. Except.error carries the message of a raised
exception. -/
structure FileEnv where
  txt_read : Except String String
  pdf_pages : Except String (List String)
  docx_paragraphs : Except String (List String)
  image_decode : Except String PyBytes

/-- read_image_file from src/app.py: open the image, convert to RGB, save as
PNG and return the bytes; any exception becomes an error string. -/
def read_image_file (env : FileEnv) : FileData :=
  match env.image_decode with
  | Except.ok bytes => Sum.inr bytes
  | Except.error e => Sum.inl ("Error processing image: " ++ e)

/-- read_file_content from src/app.py: dispatch on the file type string; txt
is a plain read, pdf joins page texts with newlines, docx joins paragraph
texts with newlines, the image types delegate to read_image_file, any other
type yields the unsupported-type error string; exceptions raised by the
readers become error strings. -/
def read_file_content (env : FileEnv) (file_type : String) : FileData :=
  if file_type == "txt" then
    match env.txt_read with
    | Except.ok text => Sum.inl text
    | Except.error e => Sum.inl ("Error reading file: " ++ e)
  else if file_type == "pdf" then
    match env.pdf_pages with
    | Except.ok pages => Sum.inl (pyJoin "\n" pages)
    | Except.error e => Sum.inl ("Error reading file: " ++ e)
  else if file_type == "docx" then
    match env.docx_paragraphs with
    | Except.ok paras => Sum.inl (pyJoin "\n" paras)
    | Except.error e => Sum.inl ("Error reading file: " ++ e)
  else if file_type == "jpg" || file_type == "jpeg" || file_type == "png" then
    read_image_file env
  else
    Sum.inl ("Error: Unsupported file type: " ++ file_type)

/-- File type derived from a filename in process_uploaded_file: the last
element of the dot split, that is the suffix after the last dot (the whole
name when no dot is present), lowercased. -/
def extension_of (filename : String) : String :=
  pyToLower ⟨(filename.data.reverse.takeWhile (fun c => c != '.')).reverse⟩

/-- process_uploaded_file from src/app.py: with no upload return the empty
triple; otherwise read the content for the extension-derived type, and if
the content is an error string return it without touching the store, else
save a document row and return content, type and new document id. -/
def process_uploaded_file (db : DB) (env : FileEnv)
    (uploaded_file : Option String) :
    (Option FileData × Option String × Option Nat) × DB :=
  match uploaded_file with
  | Option.none => ((Option.none, Option.none, Option.none), db)
  | some filename =>
      let file_type := extension_of filename
      let content := read_file_content env file_type
      if (match content with
          | Sum.inl s => pyStartsWith s "Error"
          | Sum.inr _ => false) then
        ((some content, Option.none, Option.none), db)
      else
        let saved := save_document db filename file_type content
        ((some content, some file_type, some saved.1), saved.2)

/-- Document analysis prompt of document_analyzer_agent. -/
def analyze_document_prompt : String :=
  "\n                    Analyze this document and provide:\n                    1. Brief content summary\n                    2. Key topics and concepts identified\n                    3. Relevant OOAD principles or patterns found\n                    4. Suggested questions for deeper understanding\n                    "

/-- Outcome of one visit to the document analyzer: the analysis that is
displayed, the resulting database state, and how many gateway calls the
visit made. -/
structure StepResult where
  analysis : Option String
  db : DB
  gateway_calls : Nat
deriving DecidableEq

/-- Get-or-create step of document_analyzer_agent in src/app.py: fetch the
stored initial analysis; when it is falsy (absent or empty), call the
gateway with the document content as context, and only on success store and
display the new content; on gateway error the falsy stored value is
displayed and nothing is written. -/
def initial_analysis_step (oracle : GwOracle) (db : DB) (doc_id : Nat)
    (doc_content : FileData) : StepResult :=
  let analysis := get_analysis db doc_id "initial"
  if pyFalsyOptStr analysis then
    let response :=
      query_gemini_api oracle analyze_document_prompt (some doc_content)
        "gemini-pro"
    if response.status == "success" then
      let a := response.content
      ⟨some a, (save_analysis db doc_id "initial" a).2, 1⟩
    else ⟨analysis, db, 1⟩
  else ⟨analysis, db, 0⟩

/-- Helper: for every context shape, query_gemini_api is wrapResult applied
to the oracle answer for the request described by gw_request. -/
theorem query_gemini_api_eq_wrap (oracle : GwOracle) (prompt : String)
    (context : Option FileData) (model_name : String) :
    query_gemini_api oracle prompt context model_name =
      wrapResult (oracle (gw_request prompt context model_name)) := by
  cases context with
  | none => rfl
  | some fd =>
      cases fd with
      | inl s => rfl
      | inr b => rfl

/-- C1: delete_document removes every analysis row and every query row whose
document_id is the given identifier as well as the document row itself, and
returns true exactly when a document row with that identifier existed
beforehand; analysis or query rows for a missing document neither fail the
call nor make it return true. -/
theorem delete_document_correct (db : DB) (d : Nat) :
    (∀ r ∈ (delete_document db d).2.analyses, r.document_id ≠ some d) ∧
    (∀ r ∈ (delete_document db d).2.queries, r.document_id ≠ some d) ∧
    (∀ r ∈ (delete_document db d).2.documents, r.id ≠ d) ∧
    ((delete_document db d).1 = true ↔ ∃ r ∈ db.documents, r.id = d) := by
  refine ⟨?_, ?_, ?_, ?_⟩
  · intro r hr
    simp [delete_document, List.mem_filter] at hr
    exact hr.2
  · intro r hr
    simp [delete_document, List.mem_filter] at hr
    exact hr.2
  · intro r hr
    simp [delete_document, List.mem_filter] at hr
    exact hr.2
  · simp [delete_document, List.countP_pos_iff]

/-- Concrete database used by the witnesses: one document with id 1, an
analysis and a query owned by it, and one orphan analysis row referencing
the missing document 7. -/
def dbC1 : DB :=
  ⟨[⟨1, "a.txt", "txt", Sum.inl "hello", 0, 0⟩],
   [⟨1, some 1, "initial", "summary", 0⟩, ⟨2, some 7, "initial", "orphan", 0⟩],
   [⟨1, some 1, "q", "r", "concept", 0⟩],
   2, 3, 2, 1⟩

/-- Witness for C1: on dbC1, deleting document 1 reports success. -/
theorem delete_document_correct_witness : (delete_document dbC1 1).1 = true :=
  (delete_document_correct dbC1 1).2.2.2.mpr
    ⟨⟨1, "a.txt", "txt", Sum.inl "hello", 0, 0⟩, by simp [dbC1], rfl⟩

/-- C7: for any agent type outside the three templates, the prompt builder
returns exactly the concept-category prompt for the same query. -/
theorem get_agent_prompt_fallback (query category : String)
    (h : category ∉ (["concept", "code", "design"] : List String)) :
    get_agent_prompt query category = get_agent_prompt query "concept" := by
  simp only [List.mem_cons, List.not_mem_nil, or_false, not_or] at h
  obtain ⟨h1, h2, h3⟩ := h
  simp [get_agent_prompt, h1, h2, h3]

/-- Witness for C7 at the unknown category banana. -/
theorem get_agent_prompt_fallback_witness :
    get_agent_prompt "What is encapsulation?" "banana" =
      get_agent_prompt "What is encapsulation?" "concept" :=
  get_agent_prompt_fallback "What is encapsulation?" "banana" (by decide)

set_option maxRecDepth 100000 in
/-- Counterexample for C8: the concept prompt for the encapsulation query
does not contain the literal lowercase substring of the claim; the template
capitalizes the phrase. -/
theorem concept_prompt_lacks_lowercase_best_practices :
    containsSubstr (get_agent_prompt "What is encapsulation?" "concept")
      "best practices" = false := by
  decide

set_option maxRecDepth 100000 in
/-- C8 amended: the concept prompt for the encapsulation query contains the
literal substrings of the template, with the capitalized phrase, and does
not contain the code template text. -/
theorem concept_prompt_contains_expected :
    containsSubstr (get_agent_prompt "What is encapsulation?" "concept")
      "definition with examples" = true ∧
    containsSubstr (get_agent_prompt "What is encapsulation?" "concept")
      "Best practices" = true ∧
    containsSubstr (get_agent_prompt "What is encapsulation?" "concept")
      "Usage examples" = false := by
  refine ⟨by decide, by decide, by decide⟩

/-- C10: passing document_id 0 to get_recent_queries is falsy under the
truthiness test, so the call returns the recent queries across all
documents, exactly as when the argument is omitted (the default None), for
every limit and also at the default limit 5. -/
theorem get_recent_queries_zero_id (db : DB) (limit : Nat) :
    get_recent_queries db (some 0) limit =
      get_recent_queries db Option.none limit ∧
    get_recent_queries db (some 0) 5 = get_recent_queries_default db :=
  ⟨rfl, rfl⟩

/-- Oracle returning success with empty text, the concrete input refuting
the non-empty-content part of the gateway claim. -/
def oracleEmptyText : GwOracle := fun _ => Except.ok ""

/-- Counterexample for C2: when the model returns empty text, the gateway
result has status success and its content is the empty string, so the
content is not a non-empty string in both cases. -/
theorem query_gemini_api_empty_content :
    (query_gemini_api oracleEmptyText "hello" Option.none "gemini-pro").status
      = "success" ∧
    (query_gemini_api oracleEmptyText "hello" Option.none "gemini-pro").content
      = "" :=
  ⟨rfl, rfl⟩

/-- C2 amended: for every prompt, context shape and model outcome the
gateway never raises and returns a result whose status is exactly success or
error; on success the content is exactly the model text, possibly empty, and
on any transport or model error the content is the non-empty human-readable
message. -/
theorem query_gemini_api_uniform (oracle : GwOracle) (prompt : String)
    (context : Option FileData) (model_name : String) :
    ((query_gemini_api oracle prompt context model_name).status = "success" ∨
      (query_gemini_api oracle prompt context model_name).status = "error") ∧
    ((∃ t, oracle (gw_request prompt context model_name) = Except.ok t ∧
        query_gemini_api oracle prompt context model_name = ⟨"success", t⟩) ∨
      (∃ e, oracle (gw_request prompt context model_name) = Except.error e ∧
        query_gemini_api oracle prompt context model_name =
          ⟨"error", "Error communicating with AI model: " ++ e⟩ ∧
        (query_gemini_api oracle prompt context model_name).content ≠ "")) := by
  rw [query_gemini_api_eq_wrap]
  cases h : oracle (gw_request prompt context model_name) with
  | ok t => exact ⟨Or.inl rfl, Or.inl ⟨t, rfl, rfl⟩⟩
  | error e =>
      refine ⟨Or.inr rfl, Or.inr ⟨e, rfl, rfl, ?_⟩⟩
      show ("Error communicating with AI model: " ++ e) ≠ ""
      intro hc
      have hlen := congrArg String.length hc
      rw [String.length_append] at hlen
      have h35 : ("Error communicating with AI model: ").length = 35 := rfl
      have h0 : ("" : String).length = 0 := rfl
      rw [h35, h0] at hlen
      omega

/-- C3: the intent classifier returns the gateway content stripped and
lowercased on any success, with no validation against the three permitted
categories, and the fixed default concept on any gateway error; it never
propagates an error. -/
theorem analyze_query_spec (oracle : GwOracle) (query : String)
    (file_content : Option FileData) :
    (∀ s, oracle (GwRequest.text "gemini-pro"
          (classifier_full_prompt query file_content)) = Except.ok s →
        analyze_query oracle query file_content = pyToLower (pyStrip s)) ∧
    (∀ e, oracle (GwRequest.text "gemini-pro"
          (classifier_full_prompt query file_content)) = Except.error e →
        analyze_query oracle query file_content = "concept") := by
  constructor
  · intro s h
    simp [analyze_query, query_gemini_api, h, wrapResult]
  · intro e h
    simp [analyze_query, query_gemini_api, h, wrapResult]

/-- Oracle whose classification answer is not one of the three permitted
categories and needs stripping and lowercasing. -/
def oracleBanana : GwOracle := fun _ => Except.ok "  BaNaNa  "

/-- Oracle that always raises, modelling a transport failure. -/
def oracleDown : GwOracle := fun _ => Except.error "network down"

/-- Witness for C3: a mocked success answer is returned stripped, lowercased
and unvalidated, and a mocked failure degrades to concept. -/
theorem analyze_query_spec_witness :
    analyze_query oracleBanana "Show me a Singleton pattern" Option.none
      = "banana" ∧
    analyze_query oracleDown "Show me a Singleton pattern" Option.none
      = "concept" := by
  constructor
  · have h := (analyze_query_spec oracleBanana "Show me a Singleton pattern"
      Option.none).1 "  BaNaNa  " rfl
    rw [h]
    decide
  · exact (analyze_query_spec oracleDown "Show me a Singleton pattern"
      Option.none).2 "network down" rfl

/-- C4: read_file_content returns the plain text for txt, the page texts
joined with newlines for pdf, the paragraph texts joined with newlines for
docx, the canonical PNG byte buffer for the image types, and for any other
type string an error string beginning with Error. -/
theorem read_file_content_spec (env : FileEnv) (file_type : String) :
    (∀ t, file_type = "txt" → env.txt_read = Except.ok t →
        read_file_content env file_type = Sum.inl t) ∧
    (∀ pages, file_type = "pdf" → env.pdf_pages = Except.ok pages →
        read_file_content env file_type = Sum.inl (pyJoin "\n" pages)) ∧
    (∀ paras, file_type = "docx" → env.docx_paragraphs = Except.ok paras →
        read_file_content env file_type = Sum.inl (pyJoin "\n" paras)) ∧
    (∀ b, file_type = "jpg" ∨ file_type = "jpeg" ∨ file_type = "png" →
        env.image_decode = Except.ok b →
        read_file_content env file_type = Sum.inr b) ∧
    (file_type ∉ (["txt", "pdf", "docx", "jpg", "jpeg", "png"] : List String) →
        ∃ s, read_file_content env file_type = Sum.inl ("Error" ++ s)) := by
  refine ⟨?_, ?_, ?_, ?_, ?_⟩
  · intro t hft h
    subst hft
    simp [read_file_content, h]
  · intro pages hft h
    subst hft
    simp [read_file_content, h]
  · intro paras hft h
    subst hft
    simp [read_file_content, h]
  · intro b hft h
    rcases hft with hft | hft | hft <;> subst hft <;>
      simp [read_file_content, read_image_file, h]
  · intro hnm
    simp only [List.mem_cons, List.not_mem_nil, or_false, not_or] at hnm
    obtain ⟨h1, h2, h3, h4, h5, h6⟩ := hnm
    refine ⟨": Unsupported file type: " ++ file_type, ?_⟩
    have hlit : ("Error" : String) ++ ": Unsupported file type: " =
        "Error: Unsupported file type: " := rfl
    rw [← String.append_assoc, hlit]
    simp [read_file_content, h1, h2, h3, h4, h5, h6]

/-- Concrete reader oracles used by the witnesses: every decode succeeds. -/
def envC4 : FileEnv :=
  ⟨Except.ok "hello", Except.ok ["p1", "p2"], Except.ok ["a", "b"],
   Except.ok [137, 80]⟩

/-- Witness for C4 covering a text kind, the joined kinds, an image kind and
an unsupported extension. -/
theorem read_file_content_spec_witness :
    read_file_content envC4 "txt" = Sum.inl "hello" ∧
    read_file_content envC4 "pdf" = Sum.inl "p1\np2" ∧
    read_file_content envC4 "docx" = Sum.inl "a\nb" ∧
    read_file_content envC4 "png" = Sum.inr [137, 80] ∧
    ∃ s, read_file_content envC4 "xyz" = Sum.inl ("Error" ++ s) := by
  refine ⟨(read_file_content_spec envC4 "txt").1 "hello" rfl rfl, ?_, ?_,
    (read_file_content_spec envC4 "png").2.2.2.1 [137, 80]
      (Or.inr (Or.inr rfl)) rfl,
    (read_file_content_spec envC4 "xyz").2.2.2.2 (by decide)⟩
  · rw [(read_file_content_spec envC4 "pdf").2.1 ["p1", "p2"] rfl rfl]
    rfl
  · rw [(read_file_content_spec envC4 "docx").2.2.1 ["a", "b"] rfl rfl]
    rfl

/-- C9: when processing an upload yields an input-error string, the
operation returns that error string with no file type and no document id,
and the database state is unchanged: no document row is inserted. -/
theorem process_uploaded_file_no_mutation (db : DB) (env : FileEnv)
    (filename : String) (s : String)
    (hread : read_file_content env (extension_of filename) = Sum.inl s)
    (herr : pyStartsWith s "Error" = true) :
    (process_uploaded_file db env (some filename)).2 = db ∧
    (process_uploaded_file db env (some filename)).1 =
      (some (Sum.inl s), Option.none, Option.none) := by
  constructor <;> simp [process_uploaded_file, hread, herr]

/-- Witness for C9: uploading a file with the unsupported extension xyz
returns the unsupported-type error and leaves the store untouched. -/
theorem process_uploaded_file_no_mutation_witness :
    (process_uploaded_file dbC1 envC4 (some "notes.xyz")).2 = dbC1 ∧
    (process_uploaded_file dbC1 envC4 (some "notes.xyz")).1 =
      (some (Sum.inl "Error: Unsupported file type: xyz"), Option.none,
        Option.none) :=
  process_uploaded_file_no_mutation dbC1 envC4 "notes.xyz"
    "Error: Unsupported file type: xyz" rfl (by decide)

/-- C6: get_recent_documents returns min(limit, count) rows, so at most
limit and exactly limit when at least limit documents exist, ordered by
last-accessed descending, and the default limit is 5. -/
theorem get_recent_documents_spec (db : DB) (limit : Nat) :
    (get_recent_documents db limit).length = min limit db.documents.length ∧
    List.Pairwise
      (fun a b : Nat × String × String × Nat × Nat => b.2.2.2.2 ≤ a.2.2.2.2)
      (get_recent_documents db limit) ∧
    get_recent_documents_default db = get_recent_documents db 5 := by
  refine ⟨?_, ?_, rfl⟩
  · simp [get_recent_documents, List.length_take, List.length_insertionSort]
  · have hsorted :=
      List.sorted_insertionSort (geOn DocRow.last_accessed) db.documents
    have htake : List.Pairwise (geOn DocRow.last_accessed)
        ((List.insertionSort (geOn DocRow.last_accessed) db.documents).take
          limit) :=
      List.Pairwise.sublist (List.take_sublist limit _) hsorted
    unfold get_recent_documents
    rw [List.pairwise_map]
    exact htake

/-- Helper: sorting greatest-created-first puts an element with strictly
maximal created_at at the head. -/
theorem head_insertionSort_strict_max (l : List AnalysisRow) (m : AnalysisRow)
    (h : ∀ r ∈ l, r.created_at < m.created_at) :
    (List.insertionSort (geOn AnalysisRow.created_at) (l ++ [m])).head?
      = some m := by
  cases hcase : List.insertionSort (geOn AnalysisRow.created_at) (l ++ [m]) with
  | nil =>
      exfalso
      have hperm :=
        List.perm_insertionSort (geOn AnalysisRow.created_at) (l ++ [m])
      rw [hcase] at hperm
      have hm : m ∈ ([] : List AnalysisRow) := hperm.mem_iff.mpr (by simp)
      simp at hm
  | cons hd tl =>
      have hperm :=
        List.perm_insertionSort (geOn AnalysisRow.created_at) (l ++ [m])
      have hsorted :=
        List.sorted_insertionSort (geOn AnalysisRow.created_at) (l ++ [m])
      rw [hcase] at hperm hsorted
      have hdmem : hd ∈ l ++ [m] := hperm.subset (List.mem_cons_self hd tl)
      have hdm : hd = m := by
        rcases List.mem_append.mp hdmem with hin | hin
        · exfalso
          have hlt : hd.created_at < m.created_at := h hd hin
          have hm : m ∈ hd :: tl := hperm.mem_iff.mpr (by simp)
          rcases List.mem_cons.mp hm with he | ht
          · rw [he] at hlt
            exact Nat.lt_irrefl _ hlt
          · have hge : geOn AnalysisRow.created_at hd m :=
              (List.sorted_cons.mp hsorted).1 m ht
            exact Nat.lt_irrefl _ (Nat.lt_of_lt_of_le hlt hge)
        · simpa using hin
      simp [hdm]

/-- Helper: immediately after save_analysis, get_analysis for the same
document and kind returns the newly stored content, provided every earlier
row predates the current clock. -/
theorem get_analysis_after_save (db : DB) (doc_id : Nat) (a : String)
    (hclock : ∀ r ∈ db.analyses, r.created_at < db.now) :
    get_analysis (save_analysis db doc_id "initial" a).2 doc_id "initial"
      = some a := by
  have hfilter : ((save_analysis db doc_id "initial" a).2).analyses.filter
      (fun r => r.document_id == some doc_id &&
                r.analysis_type == "initial") =
      db.analyses.filter
        (fun r => r.document_id == some doc_id &&
                  r.analysis_type == "initial") ++
      [⟨db.next_analysis_id, some doc_id, "initial", a, db.now⟩] := by
    simp [save_analysis, List.filter_append]
  have hhead := head_insertionSort_strict_max
    (db.analyses.filter
      (fun r => r.document_id == some doc_id &&
                r.analysis_type == "initial"))
    ⟨db.next_analysis_id, some doc_id, "initial", a, db.now⟩
    (fun r hr => hclock r (List.mem_of_mem_filter hr))
  show (List.insertionSort (geOn AnalysisRow.created_at)
      (((save_analysis db doc_id "initial" a).2).analyses.filter
        (fun r => r.document_id == some doc_id &&
                  r.analysis_type == "initial"))).head?.map
      AnalysisRow.analysis_content = some a
  rw [hfilter, hhead]
  rfl

/-- Empty database in its initial state. -/
def emptyDB : DB := ⟨[], [], [], 1, 1, 1, 0⟩

/-- Counterexample for C5, exhibiting both ways two sequential visits to the
get-or-create step for the same document issue two gateway calls in total.
With a gateway that always errors, the failed first visit persists nothing
and the second visit retries. With a gateway that always succeeds with empty
content, the first visit does persist an analysis row whose content is the
empty string, but that stored row reads back as falsy, so the second visit
still calls the gateway again. -/
theorem initial_analysis_two_gateway_calls :
    ((initial_analysis_step oracleDown emptyDB 1
        (Sum.inl "doc")).gateway_calls +
      (initial_analysis_step oracleDown
        (initial_analysis_step oracleDown emptyDB 1 (Sum.inl "doc")).db 1
        (Sum.inl "doc")).gateway_calls = 2 ∧
    ¬ ((initial_analysis_step oracleDown emptyDB 1
        (Sum.inl "doc")).gateway_calls +
      (initial_analysis_step oracleDown
        (initial_analysis_step oracleDown emptyDB 1 (Sum.inl "doc")).db 1
        (Sum.inl "doc")).gateway_calls ≤ 1) ∧
    (initial_analysis_step oracleDown emptyDB 1 (Sum.inl "doc")).db
      = emptyDB) ∧
    ((initial_analysis_step oracleEmptyText emptyDB 1
        (Sum.inl "doc")).gateway_calls +
      (initial_analysis_step oracleEmptyText
        (initial_analysis_step oracleEmptyText emptyDB 1 (Sum.inl "doc")).db 1
        (Sum.inl "doc")).gateway_calls = 2 ∧
    (initial_analysis_step oracleEmptyText emptyDB 1
        (Sum.inl "doc")).db.analyses
      = [⟨1, some 1, "initial", "", 0⟩]) := by
  refine ⟨⟨rfl, by decide, rfl⟩, rfl, rfl⟩

/-- C5 amended: starting from a state whose stored initial analysis is falsy
(absent or empty), when the gateway call succeeds with non-empty content the
first visit makes exactly one gateway call and persists that content, and
the second visit makes no gateway call, returns the same stored content, and
leaves the database unchanged, so the two visits issue one gateway call in
total and display identical content. -/
theorem initial_analysis_idempotent (oracle : GwOracle) (db : DB)
    (doc_id : Nat) (doc_content : FileData) (c : String)
    (hclock : ∀ r ∈ db.analyses, r.created_at < db.now)
    (habsent : pyFalsyOptStr (get_analysis db doc_id "initial") = true)
    (hgw : oracle (gw_request analyze_document_prompt (some doc_content)
      "gemini-pro") = Except.ok c)
    (hc : pyIsEmpty c = false) :
    initial_analysis_step oracle db doc_id doc_content =
      ⟨some c, (save_analysis db doc_id "initial" c).2, 1⟩ ∧
    initial_analysis_step oracle (save_analysis db doc_id "initial" c).2
        doc_id doc_content =
      ⟨some c, (save_analysis db doc_id "initial" c).2, 0⟩ := by
  have hresp : query_gemini_api oracle analyze_document_prompt
      (some doc_content) "gemini-pro" = ⟨"success", c⟩ := by
    rw [query_gemini_api_eq_wrap, hgw]
    rfl
  have hc2 : c.data.isEmpty = false := hc
  constructor
  · simp [initial_analysis_step, habsent, hresp]
  · have hget := get_analysis_after_save db doc_id c hclock
    simp [initial_analysis_step, hget, pyFalsyOptStr, hc2]

/-- Oracle returning a fixed successful analysis. -/
def oracleStub : GwOracle := fun _ => Except.ok "stub analysis"

/-- Witness for C5 amended on the empty store: one gateway call on the first
visit, none on the second, identical content both times. -/
theorem initial_analysis_idempotent_witness :
    initial_analysis_step oracleStub emptyDB 1 (Sum.inl "doc") =
      ⟨some "stub analysis",
        (save_analysis emptyDB 1 "initial" "stub analysis").2, 1⟩ ∧
    initial_analysis_step oracleStub
        (save_analysis emptyDB 1 "initial" "stub analysis").2 1
        (Sum.inl "doc") =
      ⟨some "stub analysis",
        (save_analysis emptyDB 1 "initial" "stub analysis").2, 0⟩ :=
  initial_analysis_idempotent oracleStub emptyDB 1 (Sum.inl "doc")
    "stub analysis" (by simp [emptyDB]) rfl rfl rfl
